import Mathlib

/-!
# Verification of `langchain_core.prompts.structured`

A shallow embedding of `src/libs/core/langchain_core/prompts/structured.py`
(the `StructuredPrompt` class) together with proofs about its behaviour.

The file embeds:
* the construction path `StructuredPrompt.from_messages_and_schema`,
* the composition operator `StructuredPrompt.__or__` (here `orOp`),
* the multi-stage composition method `StructuredPrompt.pipe`,
* the serialization namespace helper `StructuredPrompt.get_lc_namespace`.

External collaborators (the message conversion routine `_convert_to_message`,
the message-template classes and their `input_variables` attribute, the
f-string placeholder scanner of the templating engine, Python's `sorted` and
`str.split`) are not part of the source slice; they are modelled from the
specification, and each such definition says so in its doc comment.
-/

/-! ## Python string ordering and splitting

Python compares strings lexicographically by code point; `sorted` uses that
order.  The Lean core order on `String` is implemented with iterators and
does not reduce in the kernel, so the order is modelled structurally over the
code points. -/

/-- Lexicographic order on lists of code points, as Python compares
strings. -/
def natLexLe : List Nat → List Nat → Bool
  | [], _ => true
  | _ :: _, [] => false
  | a :: as, b :: bs =>
    if a < b then true else if b < a then false else natLexLe as bs

/-- The code points of a string, the key Python compares by. -/
def strKey (s : String) : List Nat := s.data.map (fun c => c.val.toNat)

/-- Python's `<=` on strings: lexicographic comparison of code points. -/
def pyLe (a b : String) : Bool := natLexLe (strKey a) (strKey b)

/-- Python's string order as a relation, for the sorting lemmas. -/
def pyLeR (a b : String) : Prop := pyLe a b = true

instance : DecidableRel pyLeR := fun a b => instDecidableEqBool (pyLe a b) true

/-- Modelled from the spec: Python's `sorted` on a collection of strings
(spec §4.1 step 3, "sorted, deduplicated ordered sequence").  Insertion sort
is used so that the definition evaluates inside the kernel; it produces the
same list as any stable sort for this total order. -/
def sortStrings (l : List String) : List String := l.insertionSort pyLeR

/-- Modelled from the spec: Python's `str.split(".")`, used by
`get_lc_namespace` to split the module path on dots. -/
def splitDotAux : List Char → List Char → List String
  | [], acc => [String.mk acc.reverse]
  | c :: rest, acc =>
      if c = '.' then String.mk acc.reverse :: splitDotAux rest []
      else splitDotAux rest (c :: acc)

/-- Python's `str.split(".")` over a whole string. -/
def pySplitDot (s : String) : List String := splitDotAux s.data []

/-! ## Messages and their conversion -/

/-- Modelled from the spec: the output schema attached to a structured
prompt, "either a structured mapping description or a model-schema type;
opaque to this component, passed through verbatim" (spec §3).  A dictionary
schema is a list of field-name/field-type pairs; a model schema is named. -/
inductive Schema where
  | dict (fields : List (String × String))
  | pydanticModel (name : String) (fields : List (String × String))
deriving DecidableEq, Repr

/-- Modelled from the spec: the canonical message-template forms produced by
the external conversion routine (spec §3 "Normalized Message List").  A
`placeholder` is a `MessagesPlaceholder` with its `variable_name` and
`optional` flag; a `chatMessageTemplate` is a role-tagged single-message
template (a `BaseMessagePromptTemplate`) holding an f-string template; a
`literalMessage` is a plain pre-rendered message, which is not a template. -/
inductive MessageTemplate where
  | placeholder (variable_name : String) (optional : Bool)
  | chatMessageTemplate (role : String) (template : String)
  | literalMessage (role : String) (content : String)
deriving DecidableEq, Repr

/-- Modelled from the spec: the accepted raw message representations
(spec §3 "Message Representation"): a pre-built template object, a literal
message object, a two-element pair of role and content, or a bare string
treated as a user message. -/
inductive MessageLike where
  | template (t : MessageTemplate)
  | message (role : String) (content : String)
  | pair (role : String) (template : String)
  | str (template : String)
deriving DecidableEq, Repr

/-- State of the f-string scanner: outside any brace, just after an opening
brace, or inside a field collecting its name (in reverse). -/
inductive FStringState where
  | outside
  | openBrace
  | inside (acc : List Char)

/-- Modelled from the spec: one pass of the external templating engine's
placeholder scanner over the characters of a template.  A name between
braces is a placeholder; a doubled opening brace is a literal brace (spec
glossary: "Placeholder: a named slot in a message template to be filled at
render time"). -/
def extractFStringVariablesAux : List Char → FStringState → List String
  | [], _ => []
  | c :: rest, .outside =>
      if c = '{' then extractFStringVariablesAux rest .openBrace
      else extractFStringVariablesAux rest .outside
  | c :: rest, .openBrace =>
      if c = '{' then extractFStringVariablesAux rest .outside
      else if c = '}' then extractFStringVariablesAux rest .outside
      else extractFStringVariablesAux rest (.inside [c])
  | c :: rest, .inside acc =>
      if c = '}' then String.mk acc.reverse :: extractFStringVariablesAux rest .outside
      else extractFStringVariablesAux rest (.inside (c :: acc))

/-- Modelled from the spec: the placeholder names of an f-string template,
in order of appearance. -/
def extractFStringVariables (template : String) : List String :=
  extractFStringVariablesAux template.data .outside

/-- Modelled from the spec: the external conversion rule
`_convert_to_message` for each accepted shape (spec §4.1 step 1): a template
object passes through, a literal message stays a literal message, a
`(role, template)` pair becomes a role-tagged message template, and a bare
string is shorthand for a `human` message template. -/
def convertToMessage : MessageLike → MessageTemplate
  | .template t => t
  | .message role content => .literalMessage role content
  | .pair role template => .chatMessageTemplate role template
  | .str template => .chatMessageTemplate "human" template

namespace MessageTemplate

/-- Whether the canonical message is an instance of
`BaseChatPromptTemplate` or `BaseMessagePromptTemplate`, i.e. a template
(a literal message is not). -/
def isTemplate : MessageTemplate → Bool
  | .placeholder _ _ => true
  | .chatMessageTemplate _ _ => true
  | .literalMessage _ _ => false

/-- Whether the canonical message is a `MessagesPlaceholder` with
`optional = True`. -/
def isOptionalPlaceholder : MessageTemplate → Bool
  | .placeholder _ optional => optional
  | _ => false

/-- Modelled from the spec: the `input_variables` attribute of a canonical
message.  A placeholder exposes its variable name unless it is optional; a
message template exposes the placeholder names of its f-string template; a
literal message exposes none. -/
def input_variables : MessageTemplate → List String
  | .placeholder variable_name optional => if optional then [] else [variable_name]
  | .chatMessageTemplate _ template => extractFStringVariables template
  | .literalMessage _ _ => []

end MessageTemplate

/-! ## Python sets and dicts over strings -/

/-- Adding one element to a Python `set`, modelled as a duplicate-free
list. -/
def setAdd (s : List String) (x : String) : List String :=
  if x ∈ s then s else s ++ [x]

/-- Python's `set.update`: add every element of `xs` to the set `s`. -/
def setUpdate (s : List String) (xs : List String) : List String :=
  xs.foldl setAdd s

/-- Insertion into a Python `dict` modelled as an association list: an
existing key keeps its position and has its value overwritten, a new key is
appended. -/
def dictInsert (d : List (String × List String)) (k : String) (v : List String) :
    List (String × List String) :=
  if d.any (fun p => p.1 = k) then
    d.map (fun p => if p.1 = k then (k, v) else p)
  else
    d ++ [(k, v)]

/-- Lookup in a Python `dict` modelled as an association list. -/
def dictLookup (d : List (String × List String)) (k : String) : Option (List String) :=
  (d.find? (fun p => p.1 = k)).map (fun p => p.2)

/-! ## The `StructuredPrompt` object -/

/-- The `StructuredPrompt` object: the fields assigned by
`from_messages_and_schema` in `structured.py` (spec §3: required input
names, canonical messages, partial mapping, schema, auxiliary options).
The object is assembled once and is immutable afterwards. -/
structure StructuredPrompt where
  input_variables : List String
  messages : List MessageTemplate
  partial_variables : List (String × List String)
  schema_ : Schema
  structured_output_kwargs : List (String × String)

namespace StructuredPrompt

/-- One step of the inference loop of `from_messages_and_schema`
(structured.py lines 98-104): an optional `MessagesPlaceholder` records an
empty-sequence default in the partial mapping; otherwise a template message
unions its `input_variables` into the required set. -/
def inferStep (acc : List String × List (String × List String))
    (m : MessageTemplate) : List String × List (String × List String) :=
  match m with
  | .placeholder variable_name true => (acc.1, dictInsert acc.2 variable_name [])
  | m =>
      if m.isTemplate then (setUpdate acc.1 m.input_variables, acc.2)
      else acc

/-- Embedding of `StructuredPrompt.from_messages_and_schema`
(structured.py lines 51-112): convert every representation, infer the
required and partial variables in one pass over the canonical messages, and
assemble the object with the required names sorted. -/
def from_messages_and_schema (messages : List MessageLike) (schema : Schema)
    (kwargs : List (String × String)) : StructuredPrompt :=
  let _messages := messages.map convertToMessage
  let inferred := _messages.foldl inferStep ([], [])
  { input_variables := sortStrings inferred.1
    messages := _messages
    partial_variables := inferred.2
    schema_ := schema
    structured_output_kwargs := kwargs }

/-- The module of the class, `cls.__module__` in Python: the file lives at
`libs/core/langchain_core/prompts/structured.py`. -/
def moduleName : String := "langchain_core.prompts.structured"

/-- Embedding of `StructuredPrompt.get_lc_namespace` (structured.py lines
42-49): the module path of the class split on dots. -/
def get_lc_namespace : List String := pySplitDot moduleName

end StructuredPrompt

/-! ## The composition side: consumers, pipelines, errors -/

/-- The schema-aware consumer returned by a successful
`with_structured_output` call: it records which schema and keyword options
it was bound with. -/
structure StructuredRunnable where
  model_id : String
  bound_schema : Schema
  bound_kwargs : List (String × String)
deriving DecidableEq, Repr

/-- Outcome of invoking a consumer's `with_structured_output` capability:
a schema-aware consumer, a `NotImplementedError`, or any other exception. -/
inductive WSOResult where
  | ok (bound : StructuredRunnable)
  | raiseNotImplemented (msg : String)
  | raiseOther (msg : String)
deriving DecidableEq, Repr

/-- A downstream consumer as the composition operators observe it: whether
it is an instance of `BaseLanguageModel`, whether `hasattr(consumer,
"with_structured_output")` holds, and what invoking that capability does. -/
structure Consumer where
  is_base_language_model : Bool
  has_with_structured_output : Bool
  with_structured_output : Schema → List (String × String) → WSOResult

/-- The Python exceptions the composition operators can surface: a
`NotImplementedError` with an optional `__cause__`, an `IndexError`, or any
other exception. -/
inductive PyError where
  | notImplemented (msg : String) (cause : Option PyError)
  | indexError (msg : String)
  | otherError (msg : String)

/-- One stage of a composed pipeline: the prompt itself, a schema-aware
consumer produced by `with_structured_output`, or a consumer passed through
verbatim. -/
inductive RunnableStage where
  | prompt (p : StructuredPrompt)
  | structured (r : StructuredRunnable)
  | consumer (c : Consumer)

/-- The `RunnableSequence` built by the composition operators: its stages in
order and its optional name. -/
structure RunnableSequence where
  steps : List RunnableStage
  name : Option String

namespace StructuredPrompt

/-- The wrapper message of the composition operator. -/
def orErrorMsg : String :=
  "Structured prompts must be piped to a language model that implements with_structured_output."

/-- The error message of `pipe`. -/
def pipeErrorMsg : String :=
  "Structured prompts need to be piped to a language model."

/-- Embedding of `StructuredPrompt.__or__` (structured.py lines 114-142):
if the consumer is a `BaseLanguageModel` or has a `with_structured_output`
attribute, bind the stored schema and options and build the two-stage
sequence; a `NotImplementedError` raised by the binding call is re-raised
with the explicit message and the original error as its cause; any other
exception propagates; a consumer failing the check raises the explicit
`NotImplementedError` directly. -/
def orOp (p : StructuredPrompt) (other : Consumer) : Except PyError RunnableSequence :=
  if other.is_base_language_model || other.has_with_structured_output then
    match other.with_structured_output p.schema_ p.structured_output_kwargs with
    | .ok bound => .ok ⟨[.prompt p, .structured bound], none⟩
    | .raiseNotImplemented msg =>
        .error (.notImplemented orErrorMsg (some (.notImplemented msg none)))
    | .raiseOther msg => .error (.otherError msg)
  else
    .error (.notImplemented orErrorMsg none)

/-- Embedding of `StructuredPrompt.pipe` (structured.py lines 144-178).
The guard reads `others and isinstance(others[0], BaseLanguageModel) or
hasattr(others[0], "with_structured_output")`; since `and` binds tighter
than `or`, an empty argument tuple short-circuits the conjunction and then
evaluates `others[0]` inside `hasattr`, raising `IndexError`.  For a
non-empty tuple the guard is the same check as in `orOp`.  The binding call
is not wrapped in a `try`, so a `NotImplementedError` it raises propagates
unchanged; the sequence chains the prompt, the schema-aware first consumer
and the remaining consumers verbatim under the given name. -/
def pipe (p : StructuredPrompt) (others : List Consumer) (name : Option String) :
    Except PyError RunnableSequence :=
  match others with
  | [] => .error (.indexError "tuple index out of range")
  | first :: rest =>
    if first.is_base_language_model || first.has_with_structured_output then
      match first.with_structured_output p.schema_ p.structured_output_kwargs with
      | .ok bound =>
          .ok ⟨.prompt p :: .structured bound :: rest.map .consumer, name⟩
      | .raiseNotImplemented msg => .error (.notImplemented msg none)
      | .raiseOther msg => .error (.otherError msg)
    else
      .error (.notImplemented pipeErrorMsg none)

end StructuredPrompt

/-! ## Claim-side characterisations -/

/-- The specification's description of the required names (spec §8): the
sorted, deduplicated union of the input-variable names of the converted
messages that are templates, excluding optional placeholders. -/
def requiredNamesSpec (messages : List MessageLike) : List String :=
  sortStrings
    ((((messages.map convertToMessage).filter
        (fun m => m.isTemplate && !m.isOptionalPlaceholder)).foldr
        (fun m acc => m.input_variables ++ acc) []).dedup)

/-- No non-optional template message mentions the name of an optional
placeholder among its input variables.  Under this condition the required
and partial name sets are disjoint. -/
def noClash (msgs : List MessageTemplate) : Bool :=
  msgs.all (fun m =>
    match m with
    | .placeholder n true =>
        msgs.all (fun m2 =>
          !(m2.isTemplate && !m2.isOptionalPlaceholder && decide (n ∈ m2.input_variables)))
    | _ => true)

-- Sanity check of the running example from the spec (§8).
example :
    (StructuredPrompt.from_messages_and_schema
      [.pair "system" "You are helpful", .pair "human" "{question}"]
      (.dict [("name", "str"), ("value", "int")]) []).input_variables
      = ["question"] := by decide

example : StructuredPrompt.get_lc_namespace = ["langchain_core", "prompts", "structured"] := by
  decide

/-! ## Order lemmas for the Python string order -/

theorem natLexLe_total (x y : List Nat) : natLexLe x y = true ∨ natLexLe y x = true := by
  induction x generalizing y with
  | nil => left; rfl
  | cons a as ih =>
    cases y with
    | nil => right; rfl
    | cons b bs =>
      simp only [natLexLe]
      by_cases h1 : a < b
      · left; simp [h1]
      · by_cases h2 : b < a
        · right; simp [h2]
        · have hab : a = b := by omega
          subst hab
          simpa [h1] using ih bs

theorem natLexLe_trans {x y z : List Nat} (hxy : natLexLe x y = true)
    (hyz : natLexLe y z = true) : natLexLe x z = true := by
  induction x generalizing y z with
  | nil => rfl
  | cons a as ih =>
    cases y with
    | nil => simp [natLexLe] at hxy
    | cons b bs =>
      cases z with
      | nil => simp [natLexLe] at hyz
      | cons c cs =>
        simp only [natLexLe] at hxy hyz ⊢
        by_cases hab : a < b
        · by_cases hbc : b < c
          · simp [show a < c by omega]
          · by_cases hcb : c < b
            · simp [hcb] at hyz
              exact absurd hyz hbc
            · have : b = c := by omega
              subst this
              simp [hab]
        · by_cases hba : b < a
          · simp [hab, hba] at hxy
          · have : a = b := by omega
            subst this
            simp [hab] at hxy
            by_cases hbc : a < c
            · simp [hbc]
            · by_cases hcb : c < a
              · simp [hbc, hcb] at hyz
              · have : a = c := by omega
                subst this
                simp [hbc]
                exact ih hxy (by simpa [hbc] using hyz)

theorem natLexLe_antisymm {x y : List Nat} (hxy : natLexLe x y = true)
    (hyx : natLexLe y x = true) : x = y := by
  induction x generalizing y with
  | nil =>
    cases y with
    | nil => rfl
    | cons b bs => simp [natLexLe] at hyx
  | cons a as ih =>
    cases y with
    | nil => simp [natLexLe] at hxy
    | cons b bs =>
      simp only [natLexLe] at hxy hyx
      by_cases hab : a < b
      · simp [hab, show ¬ b < a by omega] at hyx
      · by_cases hba : b < a
        · simp [hab, hba] at hxy
        · have : a = b := by omega
          subst this
          simp [hab] at hxy hyx
          rw [ih hxy hyx]

theorem strKey_injective : Function.Injective strKey := by
  intro a b h
  apply String.ext
  have hinj : Function.Injective (fun c : Char => c.val.toNat) := by
    intro c d hc
    exact Char.ext (UInt32.ext hc)
  exact List.map_injective_iff.mpr hinj h

instance : IsTotal String pyLeR := ⟨fun a b => natLexLe_total (strKey a) (strKey b)⟩

instance : IsTrans String pyLeR := ⟨fun _ _ _ => natLexLe_trans⟩

instance : IsAntisymm String pyLeR :=
  ⟨fun _ _ h1 h2 => strKey_injective (natLexLe_antisymm h1 h2)⟩

theorem sortStrings_perm (l : List String) : (sortStrings l).Perm l :=
  List.perm_insertionSort pyLeR l

theorem sortStrings_eq_of_perm {l₁ l₂ : List String} (h : l₁.Perm l₂) :
    sortStrings l₁ = sortStrings l₂ :=
  List.eq_of_perm_of_sorted
    ((List.perm_insertionSort pyLeR l₁).trans (h.trans (List.perm_insertionSort pyLeR l₂).symm))
    (List.sorted_insertionSort pyLeR l₁) (List.sorted_insertionSort pyLeR l₂)

theorem mem_sortStrings {l : List String} {x : String} : x ∈ sortStrings l ↔ x ∈ l :=
  (sortStrings_perm l).mem_iff

/-! ## Set and dict lemmas -/

theorem mem_setAdd {s : List String} {x y : String} : y ∈ setAdd s x ↔ y ∈ s ∨ y = x := by
  unfold setAdd
  split_ifs with h
  · constructor
    · exact fun hy => Or.inl hy
    · rintro (hy | rfl)
      · exact hy
      · exact h
  · simp

theorem nodup_setAdd {s : List String} {x : String} (h : s.Nodup) : (setAdd s x).Nodup := by
  unfold setAdd
  split_ifs with hx
  · exact h
  · refine List.Nodup.append h (List.nodup_singleton x) ?_
    intro a ha hax
    rw [List.mem_singleton] at hax
    subst hax
    exact hx ha

theorem mem_setUpdate {s xs : List String} {y : String} :
    y ∈ setUpdate s xs ↔ y ∈ s ∨ y ∈ xs := by
  induction xs generalizing s with
  | nil => simp [setUpdate]
  | cons x xs ih =>
    show y ∈ setUpdate (setAdd s x) xs ↔ _
    rw [ih, mem_setAdd]
    simp [List.mem_cons]
    tauto

theorem nodup_setUpdate {s xs : List String} (h : s.Nodup) : (setUpdate s xs).Nodup := by
  induction xs generalizing s with
  | nil => exact h
  | cons x xs ih => exact ih (nodup_setAdd h)

theorem keys_dictInsert_of_mem {d : List (String × List String)} {k : String}
    {v : List String} (h : d.any (fun p => p.1 = k) = true) :
    (dictInsert d k v).map Prod.fst = d.map Prod.fst := by
  unfold dictInsert
  rw [if_pos h, List.map_map]
  apply List.map_congr_left
  intro p _
  by_cases hpk : p.1 = k
  · simp [hpk]
  · simp [hpk]

theorem keys_dictInsert_of_not_mem {d : List (String × List String)} {k : String}
    {v : List String} (h : ¬ d.any (fun p => p.1 = k) = true) :
    (dictInsert d k v).map Prod.fst = d.map Prod.fst ++ [k] := by
  unfold dictInsert
  rw [if_neg h, List.map_append]
  rfl

theorem mem_keys_dictInsert {d : List (String × List String)} {k a : String}
    {v : List String} :
    a ∈ (dictInsert d k v).map Prod.fst ↔ a ∈ d.map Prod.fst ∨ a = k := by
  by_cases h : d.any (fun p => p.1 = k) = true
  · rw [keys_dictInsert_of_mem h]
    constructor
    · exact fun ha => Or.inl ha
    · rintro (ha | rfl)
      · exact ha
      · rw [List.any_eq_true] at h
        obtain ⟨p, hp, hpk⟩ := h
        rw [List.mem_map]
        exact ⟨p, hp, by simpa using hpk⟩
  · rw [keys_dictInsert_of_not_mem h]
    simp

theorem values_dictInsert {d : List (String × List String)} {k : String}
    (h : ∀ p ∈ d, p.2 = ([] : List String)) :
    ∀ p ∈ dictInsert d k [], p.2 = ([] : List String) := by
  unfold dictInsert
  split_ifs with hmem
  · intro p hp
    rw [List.mem_map] at hp
    obtain ⟨q, hq, hqp⟩ := hp
    by_cases hqk : q.1 = k
    · rw [← hqp]
      simp [hqk]
    · rw [← hqp]
      simpa [hqk] using h q hq
  · intro p hp
    rw [List.mem_append] at hp
    rcases hp with hp | hp
    · exact h p hp
    · rw [List.mem_singleton] at hp
      rw [hp]

theorem dictLookup_eq_some_nil {d : List (String × List String)} {k : String}
    (h : ∀ p ∈ d, p.2 = ([] : List String)) :
    dictLookup d k = some [] ↔ k ∈ d.map Prod.fst := by
  unfold dictLookup
  induction d with
  | nil => simp
  | cons p d ih =>
    by_cases hpk : p.1 = k
    · rw [List.find?_cons_of_pos _ (by simpa using hpk)]
      simp [h p (List.mem_cons_self p d), hpk]
    · rw [List.find?_cons_of_neg _ (by simpa using hpk)]
      rw [ih (fun q hq => h q (List.mem_cons_of_mem p hq))]
      simp [List.mem_cons]
      intro hk
      exact absurd hk.symm hpk

/-! ## Characterising the inference fold -/

namespace StructuredPrompt

theorem from_messages_input_variables (messages : List MessageLike) (schema : Schema)
    (kwargs : List (String × String)) :
    (from_messages_and_schema messages schema kwargs).input_variables
      = sortStrings (((messages.map convertToMessage).foldl inferStep ([], [])).1) := rfl

theorem from_messages_messages (messages : List MessageLike) (schema : Schema)
    (kwargs : List (String × String)) :
    (from_messages_and_schema messages schema kwargs).messages
      = messages.map convertToMessage := rfl

theorem from_messages_partial_variables (messages : List MessageLike) (schema : Schema)
    (kwargs : List (String × String)) :
    (from_messages_and_schema messages schema kwargs).partial_variables
      = ((messages.map convertToMessage).foldl inferStep ([], [])).2 := rfl

theorem inferStep_placeholder_opt (acc : List String × List (String × List String))
    (n : String) :
    inferStep acc (.placeholder n true) = (acc.1, dictInsert acc.2 n []) := rfl

theorem inferStep_of_template (acc : List String × List (String × List String))
    {m : MessageTemplate} (ht : m.isTemplate = true) (ho : m.isOptionalPlaceholder = false) :
    inferStep acc m = (setUpdate acc.1 m.input_variables, acc.2) := by
  cases m with
  | placeholder n opt =>
    cases opt with
    | true => simp [MessageTemplate.isOptionalPlaceholder] at ho
    | false => rfl
  | chatMessageTemplate role t => rfl
  | literalMessage role c => simp [MessageTemplate.isTemplate] at ht

theorem inferStep_of_literal (acc : List String × List (String × List String))
    {m : MessageTemplate} (ht : m.isTemplate = false) :
    inferStep acc m = acc := by
  cases m with
  | placeholder n opt => simp [MessageTemplate.isTemplate] at ht
  | chatMessageTemplate role t => simp [MessageTemplate.isTemplate] at ht
  | literalMessage role c => rfl

theorem inferFold_fst_mem (msgs : List MessageTemplate) (s : List String)
    (d : List (String × List String)) (x : String) :
    x ∈ (msgs.foldl inferStep (s, d)).1 ↔
      x ∈ s ∨ ∃ m ∈ msgs, m.isTemplate = true ∧ m.isOptionalPlaceholder = false ∧
        x ∈ m.input_variables := by
  induction msgs generalizing s d with
  | nil => simp
  | cons m msgs ih =>
    rw [List.foldl_cons]
    cases m with
    | placeholder n opt =>
      cases opt with
      | true =>
        rw [inferStep_placeholder_opt (s, d) n]
        rw [ih]
        simp [MessageTemplate.isOptionalPlaceholder]
      | false =>
        rw [inferStep_of_template (s, d) (by rfl) (by rfl)]
        rw [ih]
        simp only [mem_setUpdate, List.mem_cons]
        constructor
        · rintro ((hs | hv) | hex)
          · exact Or.inl hs
          · exact Or.inr ⟨_, Or.inl rfl, rfl, rfl, hv⟩
          · obtain ⟨m2, hm2, h2⟩ := hex
            exact Or.inr ⟨m2, Or.inr hm2, h2⟩
        · rintro (hs | ⟨m2, (rfl | hm2), h2⟩)
          · exact Or.inl (Or.inl hs)
          · exact Or.inl (Or.inr h2.2.2)
          · exact Or.inr ⟨m2, hm2, h2⟩
    | chatMessageTemplate role t =>
      rw [inferStep_of_template (s, d) (by rfl) (by rfl)]
      rw [ih]
      simp only [mem_setUpdate, List.mem_cons]
      constructor
      · rintro ((hs | hv) | hex)
        · exact Or.inl hs
        · exact Or.inr ⟨_, Or.inl rfl, rfl, rfl, hv⟩
        · obtain ⟨m2, hm2, h2⟩ := hex
          exact Or.inr ⟨m2, Or.inr hm2, h2⟩
      · rintro (hs | ⟨m2, (rfl | hm2), h2⟩)
        · exact Or.inl (Or.inl hs)
        · exact Or.inl (Or.inr h2.2.2)
        · exact Or.inr ⟨m2, hm2, h2⟩
    | literalMessage role c =>
      rw [inferStep_of_literal (s, d) (by rfl)]
      rw [ih]
      constructor
      · rintro (hs | ⟨m2, hm2, h2⟩)
        · exact Or.inl hs
        · exact Or.inr ⟨m2, List.mem_cons_of_mem _ hm2, h2⟩
      · rintro (hs | ⟨m2, hm2, h2⟩)
        · exact Or.inl hs
        · rcases List.mem_cons.mp hm2 with rfl | hm2
          · simp [MessageTemplate.isTemplate] at h2
          · exact Or.inr ⟨m2, hm2, h2⟩

theorem inferFold_fst_nodup (msgs : List MessageTemplate) (s : List String)
    (d : List (String × List String)) (h : s.Nodup) :
    ((msgs.foldl inferStep (s, d)).1).Nodup := by
  induction msgs generalizing s d with
  | nil => exact h
  | cons m msgs ih =>
    rw [List.foldl_cons]
    cases m with
    | placeholder n opt =>
      cases opt with
      | true => exact ih s (dictInsert d n []) h
      | false => exact ih _ _ (nodup_setUpdate h)
    | chatMessageTemplate role t => exact ih _ _ (nodup_setUpdate h)
    | literalMessage role c => exact ih _ _ h

theorem inferFold_snd_keys (msgs : List MessageTemplate) (s : List String)
    (d : List (String × List String)) (k : String) :
    k ∈ ((msgs.foldl inferStep (s, d)).2).map Prod.fst ↔
      k ∈ d.map Prod.fst ∨ (MessageTemplate.placeholder k true) ∈ msgs := by
  induction msgs generalizing s d with
  | nil => simp
  | cons m msgs ih =>
    rw [List.foldl_cons]
    cases m with
    | placeholder n opt =>
      cases opt with
      | true =>
        rw [inferStep_placeholder_opt (s, d) n]
        rw [ih]
        simp only [mem_keys_dictInsert, List.mem_cons]
        constructor
        · rintro ((hd | rfl) | hm)
          · exact Or.inl hd
          · exact Or.inr (Or.inl rfl)
          · exact Or.inr (Or.inr hm)
        · rintro (hd | (heq | hm))
          · exact Or.inl (Or.inl hd)
          · rw [MessageTemplate.placeholder.injEq] at heq
            exact Or.inl (Or.inr heq.1)
          · exact Or.inr hm
      | false =>
        rw [inferStep_of_template (s, d) (by rfl) (by rfl)]
        rw [ih]
        simp only [List.mem_cons]
        constructor
        · rintro (hd | hm)
          · exact Or.inl hd
          · exact Or.inr (Or.inr hm)
        · rintro (hd | (heq | hm))
          · exact Or.inl hd
          · rw [MessageTemplate.placeholder.injEq] at heq
            exact absurd heq.2 (by simp)
          · exact Or.inr hm
    | chatMessageTemplate role t =>
      rw [inferStep_of_template (s, d) (by rfl) (by rfl)]
      rw [ih]
      simp [List.mem_cons]
    | literalMessage role c =>
      rw [inferStep_of_literal (s, d) (by rfl)]
      rw [ih]
      simp [List.mem_cons]

theorem inferFold_snd_values (msgs : List MessageTemplate) (s : List String)
    (d : List (String × List String)) (h : ∀ p ∈ d, p.2 = ([] : List String)) :
    ∀ p ∈ (msgs.foldl inferStep (s, d)).2, p.2 = ([] : List String) := by
  induction msgs generalizing s d with
  | nil => exact h
  | cons m msgs ih =>
    rw [List.foldl_cons]
    cases m with
    | placeholder n opt =>
      cases opt with
      | true => exact ih _ _ (values_dictInsert h)
      | false => exact ih _ _ h
    | chatMessageTemplate role t => exact ih _ _ h
    | literalMessage role c => exact ih _ _ h

end StructuredPrompt

/-! ## The specification characterisation of the required names -/

theorem mem_foldr_append_vars (l : List MessageTemplate) (x : String) :
    x ∈ l.foldr (fun m acc => m.input_variables ++ acc) [] ↔
      ∃ m ∈ l, x ∈ m.input_variables := by
  induction l with
  | nil => simp
  | cons m l ih =>
    rw [List.foldr_cons, List.mem_append, ih]
    simp [List.mem_cons]

theorem mem_requiredNamesSpec (messages : List MessageLike) (x : String) :
    x ∈ requiredNamesSpec messages ↔
      ∃ m ∈ messages.map convertToMessage,
        m.isTemplate = true ∧ m.isOptionalPlaceholder = false ∧ x ∈ m.input_variables := by
  unfold requiredNamesSpec
  rw [mem_sortStrings, List.mem_dedup, mem_foldr_append_vars]
  constructor
  · rintro ⟨m, hm, hx⟩
    rw [List.mem_filter] at hm
    refine ⟨m, hm.1, ?_, ?_, hx⟩
    · exact (Bool.and_eq_true _ _ ▸ hm.2).1
    · have := (Bool.and_eq_true _ _ ▸ hm.2).2
      simpa using this
  · rintro ⟨m, hm, ht, ho, hx⟩
    refine ⟨m, ?_, hx⟩
    rw [List.mem_filter]
    exact ⟨hm, by rw [ht, ho]; rfl⟩

theorem input_variables_eq_requiredNamesSpec (messages : List MessageLike) (schema : Schema)
    (kwargs : List (String × String)) :
    (StructuredPrompt.from_messages_and_schema messages schema kwargs).input_variables
      = requiredNamesSpec messages := by
  rw [StructuredPrompt.from_messages_input_variables]
  unfold requiredNamesSpec
  apply sortStrings_eq_of_perm
  rw [List.perm_ext_iff_of_nodup
    (StructuredPrompt.inferFold_fst_nodup _ _ _ List.nodup_nil)
    (List.nodup_dedup _)]
  intro a
  rw [StructuredPrompt.inferFold_fst_mem, List.mem_dedup, mem_foldr_append_vars]
  constructor
  · rintro (ha | ⟨m, hm, ht, ho, hx⟩)
    · exact absurd ha (List.not_mem_nil a)
    · refine ⟨m, ?_, hx⟩
      rw [List.mem_filter]
      exact ⟨hm, by rw [ht, ho]; rfl⟩
  · rintro ⟨m, hm, hx⟩
    rw [List.mem_filter] at hm
    refine Or.inr ⟨m, hm.1, ?_, ?_, hx⟩
    · exact (Bool.and_eq_true _ _ ▸ hm.2).1
    · have := (Bool.and_eq_true _ _ ▸ hm.2).2
      simpa using this

theorem requiredNamesSpec_perm_invariant {messages messages' : List MessageLike}
    (h : messages.Perm messages') :
    requiredNamesSpec messages = requiredNamesSpec messages' := by
  unfold requiredNamesSpec
  apply sortStrings_eq_of_perm
  rw [List.perm_ext_iff_of_nodup (List.nodup_dedup _) (List.nodup_dedup _)]
  intro a
  rw [List.mem_dedup, List.mem_dedup, mem_foldr_append_vars, mem_foldr_append_vars]
  constructor
  · rintro ⟨m, hm, hx⟩
    refine ⟨m, ?_, hx⟩
    rw [List.mem_filter] at hm ⊢
    exact ⟨(h.map convertToMessage).mem_iff.mp hm.1, hm.2⟩
  · rintro ⟨m, hm, hx⟩
    refine ⟨m, ?_, hx⟩
    rw [List.mem_filter] at hm ⊢
    exact ⟨(h.map convertToMessage).mem_iff.mpr hm.1, hm.2⟩

theorem noClash_spec {msgs : List MessageTemplate} (h : noClash msgs = true)
    {n : String} (hn : MessageTemplate.placeholder n true ∈ msgs)
    {m : MessageTemplate} (hm : m ∈ msgs) (ht : m.isTemplate = true)
    (ho : m.isOptionalPlaceholder = false) : n ∉ m.input_variables := by
  intro hmem
  unfold noClash at h
  rw [List.all_eq_true] at h
  have h1 := h _ hn
  simp only [List.all_eq_true] at h1
  have h2 := h1 _ hm
  rw [ht, ho] at h2
  simp at h2
  exact h2 hmem

/-! ## The claims -/

/-- C1: for every sequence of valid message representations,
`from_messages_and_schema` produces a template whose `input_variables` equal
the sorted, deduplicated union of the input-variable names of all converted
messages that are themselves templates with placeholders, excluding any
placeholder marked optional. -/
theorem sp_C1 (messages : List MessageLike) (schema : Schema)
    (kwargs : List (String × String)) :
    (StructuredPrompt.from_messages_and_schema messages schema kwargs).input_variables
      = requiredNamesSpec messages :=
  input_variables_eq_requiredNamesSpec messages schema kwargs

/-- C7: permuting the input messages leaves the derived required-input name
sequence unchanged, while the canonical message list of each template is the
in-order image of its own input sequence under the conversion rule. -/
theorem sp_C7 (messages messages' : List MessageLike) (schema : Schema)
    (kwargs : List (String × String)) (h : messages.Perm messages') :
    (StructuredPrompt.from_messages_and_schema messages schema kwargs).input_variables
      = (StructuredPrompt.from_messages_and_schema messages' schema kwargs).input_variables
    ∧ (StructuredPrompt.from_messages_and_schema messages schema kwargs).messages
      = messages.map convertToMessage := by
  constructor
  · rw [input_variables_eq_requiredNamesSpec, input_variables_eq_requiredNamesSpec]
    exact requiredNamesSpec_perm_invariant h
  · exact StructuredPrompt.from_messages_messages messages schema kwargs

/-- Witness for C7 at the concrete swapped lists
`[("human", "{question}"), "{answer}"]` and `["{answer}", ("human", "{question}")]`. -/
theorem sp_C7_witness :
    (StructuredPrompt.from_messages_and_schema
        [.pair "human" "{question}", .str "{answer}"] (.dict []) []).input_variables
      = (StructuredPrompt.from_messages_and_schema
        [.str "{answer}", .pair "human" "{question}"] (.dict []) []).input_variables
    ∧ (StructuredPrompt.from_messages_and_schema
        [.pair "human" "{question}", .str "{answer}"] (.dict []) []).messages
      = [MessageLike.pair "human" "{question}", MessageLike.str "{answer}"].map convertToMessage :=
  sp_C7 _ _ _ _ (List.Perm.swap _ _ _)

/-- C8: the spec's worked example.  The messages
`[("system", "You are helpful"), ("human", "{question}")]` with the schema
`{name: str, value: int}` give required names `["question"]` and an empty
partial mapping. -/
theorem sp_C8 :
    (StructuredPrompt.from_messages_and_schema
        [.pair "system" "You are helpful", .pair "human" "{question}"]
        (.pydanticModel "OutputSchema" [("name", "str"), ("value", "int")]) []).input_variables
      = ["question"]
    ∧ (StructuredPrompt.from_messages_and_schema
        [.pair "system" "You are helpful", .pair "human" "{question}"]
        (.pydanticModel "OutputSchema" [("name", "str"), ("value", "int")]) []).partial_variables
      = [] := by
  constructor
  · decide
  · rfl

/-- C9: `get_lc_namespace` is the module path of the class split on dots,
mechanically derived, and for this module it evaluates to
`["langchain_core", "prompts", "structured"]`. -/
theorem sp_C9 :
    StructuredPrompt.get_lc_namespace = pySplitDot StructuredPrompt.moduleName
    ∧ StructuredPrompt.get_lc_namespace = ["langchain_core", "prompts", "structured"] := by
  constructor
  · rfl
  · decide

/-- C2 counterexample: with an optional placeholder named `history` and a
second message whose template mentions `{history}`, the name ends up both in
the partial mapping and in the required-input names, so the two name sets
are not disjoint. -/
theorem sp_C2_counterexample :
    "history" ∈ (StructuredPrompt.from_messages_and_schema
        [.template (.placeholder "history" true), .pair "human" "Summarize: {history}"]
        (.dict []) []).input_variables
    ∧ dictLookup (StructuredPrompt.from_messages_and_schema
        [.template (.placeholder "history" true), .pair "human" "Summarize: {history}"]
        (.dict []) []).partial_variables "history" = some [] := by
  constructor
  · decide
  · rfl

/-- C2 (amended): each optional placeholder's name is mapped to the empty
sequence in the partial mapping and the placeholder itself contributes
nothing to the required names; provided no other non-optional template
message lists that name among its input variables, the name is absent from
the required names, and the required-input and partial-variable name sets
are disjoint. -/
theorem sp_C2 (messages : List MessageLike) (schema : Schema)
    (kwargs : List (String × String))
    (h : noClash (messages.map convertToMessage) = true) :
    (∀ n, MessageTemplate.placeholder n true ∈ messages.map convertToMessage →
        dictLookup (StructuredPrompt.from_messages_and_schema messages schema
            kwargs).partial_variables n = some []
        ∧ n ∉ (StructuredPrompt.from_messages_and_schema messages schema
            kwargs).input_variables)
    ∧ ∀ p ∈ (StructuredPrompt.from_messages_and_schema messages schema
          kwargs).partial_variables,
        p.1 ∉ (StructuredPrompt.from_messages_and_schema messages schema
          kwargs).input_variables := by
  have hvals : ∀ p ∈ ((messages.map convertToMessage).foldl
      StructuredPrompt.inferStep ([], [])).2, p.2 = ([] : List String) :=
    StructuredPrompt.inferFold_snd_values _ _ _ (by intro p hp; cases hp)
  have hnotin : ∀ n, MessageTemplate.placeholder n true ∈ messages.map convertToMessage →
      n ∉ (StructuredPrompt.from_messages_and_schema messages schema
        kwargs).input_variables := by
    intro n hn hmem
    rw [StructuredPrompt.from_messages_input_variables, mem_sortStrings,
      StructuredPrompt.inferFold_fst_mem] at hmem
    rcases hmem with hmem | ⟨m, hm, ht, ho, hx⟩
    · exact absurd hmem (List.not_mem_nil n)
    · exact noClash_spec h hn hm ht ho hx
  constructor
  · intro n hn
    refine ⟨?_, hnotin n hn⟩
    rw [StructuredPrompt.from_messages_partial_variables,
      dictLookup_eq_some_nil hvals, StructuredPrompt.inferFold_snd_keys]
    exact Or.inr hn
  · intro p hp
    rw [StructuredPrompt.from_messages_partial_variables] at hp
    have hkey : p.1 ∈ (((messages.map convertToMessage).foldl
        StructuredPrompt.inferStep ([], [])).2).map Prod.fst :=
      List.mem_map_of_mem Prod.fst hp
    rw [StructuredPrompt.inferFold_snd_keys] at hkey
    rcases hkey with hkey | hkey
    · simp at hkey
    · exact hnotin p.1 hkey

/-- Witness for C2 (amended) at a concrete input: an optional `history`
placeholder next to an unrelated `{question}` template. -/
theorem sp_C2_witness :
    noClash ([MessageLike.template (.placeholder "history" true),
        MessageLike.pair "human" "{question}"].map convertToMessage) = true
    ∧ dictLookup (StructuredPrompt.from_messages_and_schema
        [.template (.placeholder "history" true), .pair "human" "{question}"]
        (.dict []) []).partial_variables "history" = some []
    ∧ decide ("history" ∈ (StructuredPrompt.from_messages_and_schema
        [.template (.placeholder "history" true), .pair "human" "{question}"]
        (.dict []) []).input_variables) = false := by
  refine ⟨by decide, ?_, ?_⟩
  · exact ((sp_C2 [.template (.placeholder "history" true), .pair "human" "{question}"]
      (.dict []) [] (by decide)).1 "history" (by decide)).1
  · exact decide_eq_false
      (((sp_C2 [.template (.placeholder "history" true), .pair "human" "{question}"]
        (.dict []) [] (by decide)).1 "history" (by decide)).2)

/-- C3 (code bug): calling `pipe` with zero consumers does not fail with
the "schema-binding unsupported" `NotImplementedError`: because `and` binds
tighter than `or` in the guard, an empty argument tuple short-circuits the
conjunction and `hasattr(others[0], ...)` evaluates `others[0]`, raising
`IndexError`.  This evaluates the embedded `pipe` at the failing input. -/
theorem sp_C3 :
    StructuredPrompt.pipe
        (StructuredPrompt.from_messages_and_schema [.pair "human" "{question}"]
          (.dict []) [])
        [] none
      = .error (.indexError "tuple index out of range") := rfl

/-- C4: a consumer that is not a language model and exposes no
`with_structured_output` capability makes both the compose operator and
`pipe` (with it as first consumer) fail with the explicit
`NotImplementedError` kind, never a different error kind. -/
theorem sp_C4 (p : StructuredPrompt) (c : Consumer) (rest : List Consumer)
    (name : Option String) (h1 : c.is_base_language_model = false)
    (h2 : c.has_with_structured_output = false) :
    StructuredPrompt.orOp p c
      = .error (.notImplemented StructuredPrompt.orErrorMsg none)
    ∧ StructuredPrompt.pipe p (c :: rest) name
      = .error (.notImplemented StructuredPrompt.pipeErrorMsg none) := by
  constructor
  · unfold StructuredPrompt.orOp
    rw [h1, h2]
    rfl
  · simp only [StructuredPrompt.pipe]
    rw [h1, h2]
    rfl

/-- Witness for C4 at a concrete prompt and a capability-free consumer. -/
theorem sp_C4_witness :
    StructuredPrompt.orOp
        (StructuredPrompt.from_messages_and_schema [.pair "human" "{question}"]
          (.dict []) [])
        ⟨false, false, fun _ _ => .raiseOther "unused"⟩
      = .error (.notImplemented StructuredPrompt.orErrorMsg none)
    ∧ StructuredPrompt.pipe
        (StructuredPrompt.from_messages_and_schema [.pair "human" "{question}"]
          (.dict []) [])
        [⟨false, false, fun _ _ => .raiseOther "unused"⟩] none
      = .error (.notImplemented StructuredPrompt.pipeErrorMsg none) :=
  sp_C4 _ _ [] none rfl rfl

/-- C5 counterexample: in `pipe`, a consumer whose `with_structured_output`
raises `NotImplementedError` is not re-raised as the explicit wrapper with
the original as cause; the original error propagates unchanged, with no
cause attached. -/
theorem sp_C5_counterexample :
    StructuredPrompt.pipe
        (StructuredPrompt.from_messages_and_schema [.pair "human" "{question}"]
          (.dict []) [])
        [⟨true, true, fun _ _ =>
          .raiseNotImplemented "with_structured_output is not implemented for this model"⟩]
        none
      = .error (.notImplemented
          "with_structured_output is not implemented for this model" none) := rfl

/-- C5 (amended): when `with_structured_output` reports non-support, the
compose operator re-raises the explicit "must be piped to a language model
that implements with_structured_output" error with the original failure as
its cause; `pipe`, by contrast, propagates the original
`NotImplementedError` unchanged, without wrapping and without a cause. -/
theorem sp_C5 (p : StructuredPrompt) (c : Consumer) (msg : String)
    (rest : List Consumer) (name : Option String)
    (hguard : (c.is_base_language_model || c.has_with_structured_output) = true)
    (hr : c.with_structured_output p.schema_ p.structured_output_kwargs
        = .raiseNotImplemented msg) :
    StructuredPrompt.orOp p c
      = .error (.notImplemented StructuredPrompt.orErrorMsg
          (some (.notImplemented msg none)))
    ∧ StructuredPrompt.pipe p (c :: rest) name
      = .error (.notImplemented msg none) := by
  constructor
  · unfold StructuredPrompt.orOp
    rw [if_pos hguard, hr]
  · simp only [StructuredPrompt.pipe]
    rw [if_pos hguard, hr]

/-- Witness for C5 (amended) at a concrete prompt and consumer. -/
theorem sp_C5_witness :
    StructuredPrompt.orOp
        (StructuredPrompt.from_messages_and_schema [.pair "human" "{question}"]
          (.dict []) [])
        ⟨true, true, fun _ _ => .raiseNotImplemented "nope"⟩
      = .error (.notImplemented StructuredPrompt.orErrorMsg
          (some (.notImplemented "nope" none)))
    ∧ StructuredPrompt.pipe
        (StructuredPrompt.from_messages_and_schema [.pair "human" "{question}"]
          (.dict []) [])
        [⟨true, true, fun _ _ => .raiseNotImplemented "nope"⟩] none
      = .error (.notImplemented "nope" none) :=
  sp_C5 _ _ "nope" [] none rfl rfl

/-- C6 counterexample: the failure handling of `pipe` is not identical to
the compose operator's: on the same consumer whose binding call raises
`NotImplementedError`, `pipe` surfaces the bare original error while the
compose operator surfaces the wrapped error with a cause. -/
theorem sp_C6_counterexample :
    StructuredPrompt.pipe
        (StructuredPrompt.from_messages_and_schema [.pair "human" "{question}"]
          (.dict []) [])
        [⟨true, true, fun _ _ => .raiseNotImplemented "schema binding rejected"⟩] none
      = .error (.notImplemented "schema binding rejected" none)
    ∧ StructuredPrompt.orOp
        (StructuredPrompt.from_messages_and_schema [.pair "human" "{question}"]
          (.dict []) [])
        ⟨true, true, fun _ _ => .raiseNotImplemented "schema binding rejected"⟩
      = .error (.notImplemented StructuredPrompt.orErrorMsg
          (some (.notImplemented "schema binding rejected" none))) :=
  ⟨rfl, rfl⟩

/-- C6 (amended): for a non-empty consumer list whose first consumer passes
the capability check, `pipe` makes the same binding call as the compose
operator with the stored schema and options; on success it chains the
prompt, the schema-aware first consumer and all remaining consumers
unmodified, in their given order, into a single named pipeline; but when the
binding call raises the "not supported" error, `pipe` propagates it
unchanged while the compose operator wraps it. -/
theorem sp_C6 (p : StructuredPrompt) (c : Consumer) (rest : List Consumer)
    (name : Option String)
    (hguard : (c.is_base_language_model || c.has_with_structured_output) = true) :
    (∀ b, c.with_structured_output p.schema_ p.structured_output_kwargs = .ok b →
        StructuredPrompt.pipe p (c :: rest) name
          = .ok ⟨.prompt p :: .structured b :: rest.map .consumer, name⟩
        ∧ StructuredPrompt.orOp p c = .ok ⟨[.prompt p, .structured b], none⟩)
    ∧ (∀ msg, c.with_structured_output p.schema_ p.structured_output_kwargs
          = .raiseNotImplemented msg →
        StructuredPrompt.pipe p (c :: rest) name
          = .error (.notImplemented msg none)
        ∧ StructuredPrompt.orOp p c
          = .error (.notImplemented StructuredPrompt.orErrorMsg
              (some (.notImplemented msg none)))) := by
  constructor
  · intro b hb
    constructor
    · simp only [StructuredPrompt.pipe]
      rw [if_pos hguard, hb]
    · unfold StructuredPrompt.orOp
      rw [if_pos hguard, hb]
  · intro msg hmsg
    constructor
    · simp only [StructuredPrompt.pipe]
      rw [if_pos hguard, hmsg]
    · unfold StructuredPrompt.orOp
      rw [if_pos hguard, hmsg]

/-- Witness for C6 (amended): a two-consumer pipeline with a schema-capable
first consumer; the bound schema and options are the prompt's stored ones,
and the second consumer is passed through verbatim. -/
theorem sp_C6_witness :
    StructuredPrompt.pipe
        (StructuredPrompt.from_messages_and_schema [.pair "human" "{question}"]
          (.dict [("answer", "str")]) [("method", "json_mode")])
        [⟨true, true, fun s k => .ok ⟨"chat-model", s, k⟩⟩,
          ⟨false, false, fun _ _ => .raiseOther "unused"⟩] (some "pipeline")
      = .ok ⟨[.prompt (StructuredPrompt.from_messages_and_schema
            [.pair "human" "{question}"] (.dict [("answer", "str")])
            [("method", "json_mode")]),
          .structured ⟨"chat-model", .dict [("answer", "str")], [("method", "json_mode")]⟩,
          .consumer ⟨false, false, fun _ _ => .raiseOther "unused"⟩], some "pipeline"⟩
    ∧ StructuredPrompt.orOp
        (StructuredPrompt.from_messages_and_schema [.pair "human" "{question}"]
          (.dict [("answer", "str")]) [("method", "json_mode")])
        ⟨true, true, fun s k => .ok ⟨"chat-model", s, k⟩⟩
      = .ok ⟨[.prompt (StructuredPrompt.from_messages_and_schema
            [.pair "human" "{question}"] (.dict [("answer", "str")])
            [("method", "json_mode")]),
          .structured ⟨"chat-model", .dict [("answer", "str")],
            [("method", "json_mode")]⟩], none⟩ :=
  (sp_C6 (StructuredPrompt.from_messages_and_schema [.pair "human" "{question}"]
      (.dict [("answer", "str")]) [("method", "json_mode")])
    ⟨true, true, fun s k => .ok ⟨"chat-model", s, k⟩⟩
    [⟨false, false, fun _ _ => .raiseOther "unused"⟩] (some "pipeline") rfl).1
    ⟨"chat-model", .dict [("answer", "str")], [("method", "json_mode")]⟩ rfl

/-- C10: in the compose operator, an exception raised by
`with_structured_output` that is not a `NotImplementedError` propagates to
the caller unchanged, without being wrapped in the explicit
"schema-binding unsupported" error kind. -/
theorem sp_C10 (p : StructuredPrompt) (c : Consumer) (msg : String)
    (hguard : (c.is_base_language_model || c.has_with_structured_output) = true)
    (hr : c.with_structured_output p.schema_ p.structured_output_kwargs
        = .raiseOther msg) :
    StructuredPrompt.orOp p c = .error (.otherError msg) := by
  unfold StructuredPrompt.orOp
  rw [if_pos hguard, hr]

/-- Witness for C10 at a concrete prompt and consumer. -/
theorem sp_C10_witness :
    StructuredPrompt.orOp
        (StructuredPrompt.from_messages_and_schema [.pair "human" "{question}"]
          (.dict []) [])
        ⟨false, true, fun _ _ => .raiseOther "rate limit exceeded"⟩
      = .error (.otherError "rate limit exceeded") :=
  sp_C10 _ _ "rate limit exceeded" rfl rfl
